import Mathlib

/-!
Shallow embedding of the UrbaPonics decision engine:
the two Arduino sketches "Air Monitoring Dashboard/code.ino" and
"Water Monitoring Dashboard/code.ino".

Machine `int` values are modelled as `Int` (all values involved are far from
the 32-bit boundaries, and the water sketch's `float` thresholds only ever
hold small integers, on which float arithmetic is exact, so `Int` is a
faithful carrier). Each definition mirrors one function or handler of the
sketches; the sticky `static` locals become explicit state record fields.
-/

namespace UrbaPonics

/-! ## Air variant: thresholds, danger limits, band hysteresis -/

/-- Hard safety limits of the air sketch (`TEMP_DANGER_LOW` … `CO2_DANGER_HIGH`). -/
def TEMP_DANGER_LOW : Int := 10

def TEMP_DANGER_HIGH : Int := 40

def HUM_DANGER_LOW : Int := 30

def HUM_DANGER_HIGH : Int := 90

def CO2_DANGER_LOW : Int := 100

def CO2_DANGER_HIGH : Int := 2000

/-- `const int HYST = 2;` — the fixed hysteresis margin of `controlFans`. -/
def HYST : Int := 2

/-- The six user-settable thresholds of the air sketch
(`minTemp` … `maxCO2`, module-level globals). -/
structure AirCfg where
  minTemp : Int
  maxTemp : Int
  minHumid : Int
  maxHumid : Int
  minCO2 : Int
  maxCO2 : Int
  deriving Repr, DecidableEq

/-- The default threshold values the sketch boots with. -/
def airCfg0 : AirCfg :=
  { minTemp := 20, maxTemp := 30, minHumid := 65, maxHumid := 76
    minCO2 := 400, maxCO2 := 1000 }

/-- Threshold write handler `BLYNK_WRITE(V4)`: `minTemp = param.asInt();`
(no validation). -/
def writeV4 (v : Int) (c : AirCfg) : AirCfg := { c with minTemp := v }

/-- Threshold write handler `BLYNK_WRITE(V5)`: `maxTemp = param.asInt();`
(no validation). -/
def writeV5 (v : Int) (c : AirCfg) : AirCfg := { c with maxTemp := v }

/-- Threshold write handler `BLYNK_WRITE(V6)`: `minHumid = param.asInt();`. -/
def writeV6 (v : Int) (c : AirCfg) : AirCfg := { c with minHumid := v }

/-- Threshold write handler `BLYNK_WRITE(V9)`: `maxHumid = param.asInt();`. -/
def writeV9 (v : Int) (c : AirCfg) : AirCfg := { c with maxHumid := v }

/-- Threshold write handler `BLYNK_WRITE(V10)`: `minCO2 = param.asInt();`. -/
def writeV10 (v : Int) (c : AirCfg) : AirCfg := { c with minCO2 := v }

/-- Threshold write handler `BLYNK_WRITE(V11)`: `maxCO2 = param.asInt();`. -/
def writeV11 (v : Int) (c : AirCfg) : AirCfg := { c with maxCO2 := v }

/-- The sticky `static` state of `controlFans`: the two fan outputs and six
band flags. -/
structure FanState where
  intakeFanState : Bool
  exhaustFanState : Bool
  tempHigh : Bool
  tempLow : Bool
  humHigh : Bool
  humLow : Bool
  co2High : Bool
  co2Low : Bool
  deriving Repr, DecidableEq

/-- Power-up state of `controlFans`: every `static bool` initialised `false`. -/
def fanInit : FanState :=
  { intakeFanState := false, exhaustFanState := false
    tempHigh := false, tempLow := false
    humHigh := false, humLow := false
    co2High := false, co2Low := false }

/-- One sticky High-flag update of `controlFans`, e.g.
`if (temp >= maxTemp) tempHigh = true; else if (temp <= maxTemp - HYST) tempHigh = false;`. -/
def bandStepHigh (maxSp v : Int) (h : Bool) : Bool :=
  if maxSp ≤ v then true else if v ≤ maxSp - HYST then false else h

/-- One sticky Low-flag update of `controlFans`, e.g.
`if (temp <= minTemp) tempLow = true; else if (temp >= minTemp + HYST) tempLow = false;`. -/
def bandStepLow (minSp v : Int) (l : Bool) : Bool :=
  if v ≤ minSp then true else if minSp + HYST ≤ v then false else l

/-- `bool dangerTemp = temp <= TEMP_DANGER_LOW || temp >= TEMP_DANGER_HIGH;` -/
def dangerTemp (v : Int) : Bool :=
  decide (v ≤ TEMP_DANGER_LOW) || decide (TEMP_DANGER_HIGH ≤ v)

/-- `bool dangerHum = hum <= HUM_DANGER_LOW || hum >= HUM_DANGER_HIGH;` -/
def dangerHum (v : Int) : Bool :=
  decide (v ≤ HUM_DANGER_LOW) || decide (HUM_DANGER_HIGH ≤ v)

/-- `bool dangerCO2 = co2 <= CO2_DANGER_LOW || co2 >= CO2_DANGER_HIGH;` -/
def dangerCO2 (v : Int) : Bool :=
  decide (v ≤ CO2_DANGER_LOW) || decide (CO2_DANGER_HIGH ≤ v)

/-- `void controlFans(int temp, int hum, int co2)` of the air sketch.
The danger branch overwrites the fan outputs and returns without touching the
band flags; otherwise the six sticky flags are updated, then the fan-intent
table is applied in source order, where the humidity block is
`if (humHigh) { wantExhaust = true; } else if (humLow) { wantExhaust = false; }`. -/
def controlFans (cfg : AirCfg) (temp hum co2 : Int) (s : FanState) : FanState :=
  if dangerTemp temp || dangerHum hum || dangerCO2 co2 then
    { s with intakeFanState := false, exhaustFanState := true }
  else
    let tempHigh := bandStepHigh cfg.maxTemp temp s.tempHigh
    let tempLow := bandStepLow cfg.minTemp temp s.tempLow
    let humHigh := bandStepHigh cfg.maxHumid hum s.humHigh
    let humLow := bandStepLow cfg.minHumid hum s.humLow
    let co2High := bandStepHigh cfg.maxCO2 co2 s.co2High
    let co2Low := bandStepLow cfg.minCO2 co2 s.co2Low
    let wantIntake0 := false
    let wantExhaust0 := false
    let p1 :=
      if tempHigh then (true, true)
      else if tempLow then (true, wantExhaust0)
      else (wantIntake0, wantExhaust0)
    let wantExhaust2 :=
      if humHigh then true else if humLow then false else p1.2
    let p3 :=
      if co2High then (p1.1, true)
      else if co2Low then (true, wantExhaust2)
      else (p1.1, wantExhaust2)
    { s with
      tempHigh := tempHigh, tempLow := tempLow
      humHigh := humHigh, humLow := humLow
      co2High := co2High, co2Low := co2Low
      intakeFanState := p3.1, exhaustFanState := p3.2 }

/-- `readAndSendSensors` of the air sketch, restricted to its effect on the
fan controller state: `controlFans` runs only when neither the temperature
nor the humidity reading is NaN; an unavailable reading is modelled as
`none`. -/
def readAndSendSensors (tOpt hOpt : Option Int) (co2 : Int) (cfg : AirCfg)
    (s : FanState) : FanState :=
  match tOpt, hOpt with
  | some t, some h => controlFans cfg t h co2 s
  | _, _ => s

/-! ## Water variant: cooling hysteresis and manual drain -/

/-- `float TEMP_HYSTERESIS = 1.0;` of the water sketch (integer-valued). -/
def TEMP_HYSTERESIS : Int := 1

/-- The water sketch's two user-settable thresholds
(`OPTIMAL_TEMP_MAX` from V6, `OPTIMAL_TEMP_MIN` from V5). -/
structure WaterCfg where
  OPTIMAL_TEMP_MAX : Int
  OPTIMAL_TEMP_MIN : Int
  deriving Repr, DecidableEq

/-- The default water thresholds (`28.0` / `24.0`). -/
def waterCfg0 : WaterCfg := { OPTIMAL_TEMP_MAX := 28, OPTIMAL_TEMP_MIN := 24 }

/-- The water sketch's actuator and mode state: the three cooling relays
(`true` = energised/ON), the `coolingActive` mirror, the `static bool
coolingState` sticky flag of `handleActuators`, and `manualDrainActive`. -/
structure WaterState where
  relayPeltier : Bool
  relayPump : Bool
  relayFan : Bool
  coolingActive : Bool
  coolingState : Bool
  manualDrainActive : Bool
  deriving Repr, DecidableEq

/-- `int readWaterTemp()`: a disconnected DS18B20 (reading unavailable,
modelled `none`) is returned as the sentinel `-99`; otherwise the numeric
reading is returned. -/
def readWaterTemp (r : Option Int) : Int :=
  match r with
  | none => -99
  | some t => t

/-- `void controlCoolingSystem(bool on)`: drives the three relays together
and records `coolingActive = on`. -/
def controlCoolingSystem (b : Bool) (s : WaterState) : WaterState :=
  { s with relayPeltier := b, relayPump := b, relayFan := b
           coolingActive := b }

/-- The sticky cooling decision of `handleActuators` (lines 129–152): the
four hysteresis bounds are computed, but the OFF test in the
cooling-currently-ON branch is `temp <= lowerOff` with
`lowerOff = OPTIMAL_TEMP_MIN`; `upperOff` and `lowerOn` are computed and
never consulted, exactly as in the source. -/
def coolingStep (cfg : WaterCfg) (temp : Int) (coolingState : Bool) : Bool :=
  let upperOn := cfg.OPTIMAL_TEMP_MAX
  let upperOff := cfg.OPTIMAL_TEMP_MAX - TEMP_HYSTERESIS
  let lowerOff := cfg.OPTIMAL_TEMP_MIN
  let lowerOn := cfg.OPTIMAL_TEMP_MIN + TEMP_HYSTERESIS
  let _ := upperOff
  let _ := lowerOn
  if !coolingState then
    if upperOn ≤ temp then true else coolingState
  else
    if temp ≤ lowerOff then false else coolingState

/-- `void handleActuators()` of the water sketch: manual drain short-circuits
(pump ON, peltier and fan OFF); otherwise the temperature is read (an
unavailable sensor yields `-99`), the sticky cooling state is stepped, and
the cooling relays are driven from it. -/
def handleActuators (r : Option Int) (cfg : WaterCfg) (s : WaterState) :
    WaterState :=
  if s.manualDrainActive then
    { s with relayPump := true, relayPeltier := false, relayFan := false }
  else
    let temp := readWaterTemp r
    let coolingState := coolingStep cfg temp s.coolingState
    controlCoolingSystem coolingState { s with coolingState := coolingState }

/-! ## Air variant: grow-light / fogger duty-cycle scheduler

The sketch uses two `Ticker` objects, `lightTicker` and `foggerOffTicker`.
An ESP32 `Ticker` holds at most one pending callback: arming it again with
`once` replaces whatever was pending. Each ticker is therefore modelled as a
single optional slot holding an absolute deadline (seconds) and, for
`lightTicker`, which of the three callbacks was armed. -/

/-- The three callbacks the sketch arms on `lightTicker`: the halfway
`scheduleFoggerNow` call, the light-off lambda, and the cycle-restart
`scheduleGrowLight` call. -/
inductive LightEvt where
  | halfwayPulse : LightEvt
  | lightOff : LightEvt
  | growLight : LightEvt
  deriving Repr, DecidableEq

/-- The scheduler-related globals of the air sketch plus the two ticker
slots. -/
structure SchedState where
  lightState : Bool
  foggerState : Bool
  foggerActive : Bool
  schedulerEnabled : Bool
  lastSchedulerState : Bool
  userLightOnHours : Nat
  userFoggerSeconds : Nat
  nextLightOffSec : Nat
  lightSlot : Option (Nat × LightEvt)
  foggerSlot : Option Nat
  deriving Repr, DecidableEq

/-- Power-up scheduler state: everything off, defaults
`LIGHT_DEFAULT_HOURS = 6` and `FOGGER_DEFAULT_SECONDS = 5`, no timers. -/
def schedInit : SchedState :=
  { lightState := false, foggerState := false, foggerActive := false
    schedulerEnabled := false, lastSchedulerState := false
    userLightOnHours := 6, userFoggerSeconds := 5, nextLightOffSec := 0
    lightSlot := none, foggerSlot := none }

/-- `void setLightState(bool state)` (the relay write is external). -/
def setLightState (b : Bool) (s : SchedState) : SchedState :=
  { s with lightState := b }

/-- `void setFoggerState(bool state)` (the relay write is external). -/
def setFoggerState (b : Bool) (s : SchedState) : SchedState :=
  { s with foggerState := b }

/-- `void scheduleFoggerNow()` at time `now`: a no-op unless the light is on
and no pulse is active; otherwise turns the fogger on, marks the pulse
active, and arms `foggerOffTicker` for `userFoggerSeconds`. -/
def scheduleFoggerNow (now : Nat) (s : SchedState) : SchedState :=
  if !s.lightState then s
  else if !s.foggerActive then
    let s := setFoggerState true s
    { s with foggerActive := true
             foggerSlot := some (now + s.userFoggerSeconds) }
  else s

/-- `void scheduleGrowLight()` at time `now`: records `nextLightOffSec`,
turns the light on, fires the entry fogger pulse, then arms `lightTicker`
twice — `once(onSec/2, scheduleFoggerNow)` followed by
`once(onSec, lightOff-lambda)`. The second arm replaces the first in the
single `lightTicker` slot, as the `Ticker` class re-arms the same timer. -/
def scheduleGrowLight (now : Nat) (s : SchedState) : SchedState :=
  let onSec := s.userLightOnHours * 3600
  let offSec := (12 - s.userLightOnHours) * 3600
  let s := { s with nextLightOffSec := offSec }
  let s := setLightState true s
  let s := scheduleFoggerNow now s
  let s := { s with lightSlot := some (now + onSec / 2, LightEvt.halfwayPulse) }
  { s with lightSlot := some (now + onSec, LightEvt.lightOff) }

/-- Firing the pending `lightTicker` callback at its deadline `now`:
the halfway callback runs `scheduleFoggerNow`; the light-off lambda turns
the light off and re-arms `lightTicker` for `nextLightOffSec` with
`scheduleGrowLight`; the restart callback runs `scheduleGrowLight`. -/
def fireLightEvt (now : Nat) (e : LightEvt) (s : SchedState) : SchedState :=
  match e with
  | LightEvt.halfwayPulse => scheduleFoggerNow now s
  | LightEvt.lightOff =>
      let s := setLightState false s
      { s with lightSlot := some (now + s.nextLightOffSec, LightEvt.growLight) }
  | LightEvt.growLight => scheduleGrowLight now s

/-- Firing the `foggerOffTicker` lambda: fogger off, pulse no longer
active. -/
def fireFoggerOff (s : SchedState) : SchedState :=
  let s := setFoggerState false s
  { s with foggerActive := false }

/-- `void enableScheduler(bool enable)`: records the mode, detaches both
tickers, then either starts a fresh cycle (`scheduleGrowLight`) or forces
light and fogger off. Note the disable path does not clear
`foggerActive`. -/
def enableScheduler (enable : Bool) (now : Nat) (s : SchedState) : SchedState :=
  let s := { s with schedulerEnabled := enable, lastSchedulerState := enable
                    lightSlot := none, foggerSlot := none }
  if enable then scheduleGrowLight now s
  else setFoggerState false (setLightState false s)

/-- Run the timer dispatch up to (and including) time `t`: repeatedly fire
the pending slot with the earliest deadline `≤ t`, earliest first (the two
scenarios' deadlines never tie; on a tie the fogger-off lambda fires first).
`fuel` bounds the number of fired events. -/
def advance : Nat → Nat → SchedState → SchedState
  | 0, _, s => s
  | fuel + 1, t, s =>
    match s.foggerSlot, s.lightSlot with
    | some df, some (dl, e) =>
        if df ≤ t ∧ df ≤ dl then
          advance fuel t (fireFoggerOff { s with foggerSlot := none })
        else if dl ≤ t then
          advance fuel t (fireLightEvt dl e { s with lightSlot := none })
        else s
    | some df, none =>
        if df ≤ t then
          advance fuel t (fireFoggerOff { s with foggerSlot := none })
        else s
    | none, some (dl, e) =>
        if dl ≤ t then
          advance fuel t (fireLightEvt dl e { s with lightSlot := none })
        else s
    | none, none => s

/-! ## Air variant: cycle-configuration write handlers -/

/-- The Blynk virtual pins the sketches write to. -/
inductive Pin where
  | V0 | V1 | V2 | V3 | V4 | V5 | V6 | V7 | V8 | V9 | V10 | V11
  deriving Repr, DecidableEq

/-- `BLYNK_WRITE(V7)` of the air sketch: accepts `light_on_hours` only while
the scheduler is disabled and `0 < hours < 12`; every rejection keeps the
previous value and performs `Blynk.virtualWrite(V6, userLightOnHours)` —
note the echo goes to pin V6, as written in the source. The result pairs the
new state with the echo write, if any. -/
def blynkWriteV7 (hours : Int) (s : SchedState) :
    SchedState × Option (Pin × Nat) :=
  if !s.schedulerEnabled then
    if 0 < hours ∧ hours < 12 then
      ({ s with userLightOnHours := hours.toNat }, none)
    else (s, some (Pin.V6, s.userLightOnHours))
  else (s, some (Pin.V6, s.userLightOnHours))

/-- `BLYNK_WRITE(V8)` of the air sketch: accepts `fogger_pulse_seconds` only
while the scheduler is disabled and `5 <= seconds <= 180`; every rejection
keeps the previous value and performs
`Blynk.virtualWrite(V7, userFoggerSeconds)` — the echo goes to pin V7, as
written in the source. -/
def blynkWriteV8 (seconds : Int) (s : SchedState) :
    SchedState × Option (Pin × Nat) :=
  if !s.schedulerEnabled then
    if 5 ≤ seconds ∧ seconds ≤ 180 then
      ({ s with userFoggerSeconds := seconds.toNat }, none)
    else (s, some (Pin.V7, s.userFoggerSeconds))
  else (s, some (Pin.V7, s.userFoggerSeconds))

/-! ## Theorems: the fan controller (claims on `controlFans`) -/

/-- C1, counterexample: from the all-false power-up state with the default
thresholds, one evaluation at temp = 30, hum = 65, co2 = 700 leaves
`tempHigh = true` (so the temperature rule set `wantExhaust = true`) and
`humLow = true`, yet the final exhaust output is `false`: the humidity-Low
branch executes `wantExhaust = false` and resets the flag set by the
temperature rule, so the outputs are not the order-independent OR of the
per-channel contributions. -/
theorem c1_counterexample :
    (controlFans airCfg0 30 65 700 fanInit).tempHigh = true ∧
    (controlFans airCfg0 30 65 700 fanInit).humLow = true ∧
    (controlFans airCfg0 30 65 700 fanInit).exhaustFanState = false := by
  decide

/-- C1, amended: in the non-danger path the rules are applied in source
order and the humidity-Low branch assigns `wantExhaust = false`; the
resulting outputs over the updated band flags are
`intake = tempHigh ∨ tempLow ∨ (¬co2High ∧ co2Low)` and
`exhaust = co2High ∨ humHigh ∨ (¬humLow ∧ tempHigh)` — an OR for intake, but
for exhaust the temperature-High contribution survives only when
humidity-Low does not fire (CO2-High re-asserts exhaust afterwards). -/
theorem c1_amended_combination (cfg : AirCfg) (t h c : Int) (s : FanState)
    (hd : (dangerTemp t || dangerHum h || dangerCO2 c) = false) :
    (controlFans cfg t h c s).intakeFanState =
      ((controlFans cfg t h c s).tempHigh || (controlFans cfg t h c s).tempLow ||
        (!(controlFans cfg t h c s).co2High && (controlFans cfg t h c s).co2Low)) ∧
    (controlFans cfg t h c s).exhaustFanState =
      ((controlFans cfg t h c s).co2High || (controlFans cfg t h c s).humHigh ||
        (!(controlFans cfg t h c s).humLow && (controlFans cfg t h c s).tempHigh)) := by
  cases hb1 : bandStepHigh cfg.maxTemp t s.tempHigh <;>
    cases hb2 : bandStepLow cfg.minTemp t s.tempLow <;>
    cases hb3 : bandStepHigh cfg.maxHumid h s.humHigh <;>
    cases hb4 : bandStepLow cfg.minHumid h s.humLow <;>
    cases hb5 : bandStepHigh cfg.maxCO2 c s.co2High <;>
    cases hb6 : bandStepLow cfg.minCO2 c s.co2Low <;>
    simp [controlFans, hd, hb1, hb2, hb3, hb4, hb5, hb6]

/-- C1, amended, witness: concrete non-danger evaluation instantiating the
amended combination law. -/
theorem c1_amended_combination_witness :
    (dangerTemp 30 || dangerHum 65 || dangerCO2 700) = false ∧
    (controlFans airCfg0 30 65 700 fanInit).exhaustFanState =
      ((controlFans airCfg0 30 65 700 fanInit).co2High ||
        (controlFans airCfg0 30 65 700 fanInit).humHigh ||
        (!(controlFans airCfg0 30 65 700 fanInit).humLow &&
          (controlFans airCfg0 30 65 700 fanInit).tempHigh)) := by
  exact ⟨by decide, (c1_amended_combination airCfg0 30 65 700 fanInit (by decide)).2⟩

/-- C2: whenever any channel's danger flag holds, one `controlFans` call
forces `exhaust = true`, `intake = false`, and leaves all six sticky band
flags exactly as they were. -/
theorem c2_danger_frame (cfg : AirCfg) (t h c : Int) (s : FanState)
    (hd : (dangerTemp t || dangerHum h || dangerCO2 c) = true) :
    (controlFans cfg t h c s).exhaustFanState = true ∧
    (controlFans cfg t h c s).intakeFanState = false ∧
    (controlFans cfg t h c s).tempHigh = s.tempHigh ∧
    (controlFans cfg t h c s).tempLow = s.tempLow ∧
    (controlFans cfg t h c s).humHigh = s.humHigh ∧
    (controlFans cfg t h c s).humLow = s.humLow ∧
    (controlFans cfg t h c s).co2High = s.co2High ∧
    (controlFans cfg t h c s).co2Low = s.co2Low := by
  simp [controlFans, hd]

/-- C2, witness: scenario B — CO2 = 2100 with danger limit 2000, from a
state with band flags set, forces full venting and keeps the flags. -/
theorem c2_danger_frame_witness :
    (dangerTemp 25 || dangerHum 70 || dangerCO2 2100) = true ∧
    (controlFans airCfg0 25 70 2100
      { fanInit with tempHigh := true, humLow := true }).exhaustFanState = true ∧
    (controlFans airCfg0 25 70 2100
      { fanInit with tempHigh := true, humLow := true }).tempHigh =
      ({ fanInit with tempHigh := true, humLow := true } : FanState).tempHigh := by
  refine ⟨by decide, ?_, ?_⟩
  · exact (c2_danger_frame airCfg0 25 70 2100
      { fanInit with tempHigh := true, humLow := true } (by decide)).1
  · exact (c2_danger_frame airCfg0 25 70 2100
      { fanInit with tempHigh := true, humLow := true } (by decide)).2.2.1

/-- C3: the sticky band update of `controlFans` is the stated hysteresis
rule — from outside High the flag turns on exactly when `value ≥ max`; from
High it turns off exactly when `value ≤ max - HYST`; symmetrically for Low
with `min` and `min + HYST`; and any value strictly inside
`(max - HYST, max)` leaves the High flag unchanged (hysteresis dead zone). -/
theorem c3_hysteresis_band (maxSp minSp v : Int) (hb : Bool) :
    (bandStepHigh maxSp v false = true ↔ maxSp ≤ v) ∧
    (bandStepHigh maxSp v true = false ↔ v ≤ maxSp - HYST) ∧
    (bandStepLow minSp v false = true ↔ v ≤ minSp) ∧
    (bandStepLow minSp v true = false ↔ minSp + HYST ≤ v) ∧
    (maxSp - HYST < v → v < maxSp → bandStepHigh maxSp v hb = hb) := by
  unfold bandStepHigh bandStepLow HYST
  refine ⟨?_, ?_, ?_, ?_, ?_⟩
  · split_ifs <;> simp <;> omega
  · split_ifs <;> simp <;> omega
  · split_ifs <;> simp <;> omega
  · split_ifs <;> simp <;> omega
  · intro h1 h2
    split_ifs <;> first | rfl | omega

/-- C3, witness: scenario A's dead zone — with `maxTemp = 30`, a High flag
at value 29 stays High. -/
theorem c3_hysteresis_band_witness :
    (30 : Int) - HYST < 29 ∧ (29 : Int) < 30 ∧
    bandStepHigh 30 29 true = true := by
  refine ⟨by decide, by decide, ?_⟩
  exact (c3_hysteresis_band 30 20 29 true).2.2.2.2 (by decide) (by decide)

/-- C9, counterexample: the threshold write handlers apply values with no
validation, so after `BLYNK_WRITE(V4)` sets `minTemp = 30` and
`BLYNK_WRITE(V5)` sets `maxTemp = 10`, a single evaluation at temp = 20
(not a danger value) leaves `tempHigh` and `tempLow` both true. -/
theorem c9_counterexample :
    (controlFans (writeV5 10 (writeV4 30 airCfg0)) 20 70 700 fanInit).tempHigh = true ∧
    (controlFans (writeV5 10 (writeV4 30 airCfg0)) 20 70 700 fanInit).tempLow = true := by
  decide

/-- Per-channel mutual-exclusivity preservation of the sticky band update,
valid whenever the channel's setpoints satisfy `min + HYST ≤ max`. -/
theorem bandStep_mutex (minSp maxSp v : Int) (hb lb : Bool)
    (hle : minSp + HYST ≤ maxSp) (hx : ¬(hb = true ∧ lb = true)) :
    ¬(bandStepHigh maxSp v hb = true ∧ bandStepLow minSp v lb = true) := by
  unfold bandStepHigh bandStepLow
  unfold HYST at *
  split_ifs <;> simp_all <;> omega

/-- C9, amended: High/Low mutual exclusivity is an invariant of
`controlFans` for every channel whose setpoints satisfy
`min_setpoint + HYST ≤ max_setpoint` (true of the defaults); since threshold
writes are unvalidated, configurations violating that side condition can
leave both flags true, as the counterexample shows. -/
theorem c9_amended_mutex (cfg : AirCfg) (t h c : Int) (s : FanState)
    (hT : cfg.minTemp + HYST ≤ cfg.maxTemp)
    (hH : cfg.minHumid + HYST ≤ cfg.maxHumid)
    (hC : cfg.minCO2 + HYST ≤ cfg.maxCO2)
    (mT : ¬(s.tempHigh = true ∧ s.tempLow = true))
    (mH : ¬(s.humHigh = true ∧ s.humLow = true))
    (mC : ¬(s.co2High = true ∧ s.co2Low = true)) :
    ¬((controlFans cfg t h c s).tempHigh = true ∧
      (controlFans cfg t h c s).tempLow = true) ∧
    ¬((controlFans cfg t h c s).humHigh = true ∧
      (controlFans cfg t h c s).humLow = true) ∧
    ¬((controlFans cfg t h c s).co2High = true ∧
      (controlFans cfg t h c s).co2Low = true) := by
  cases hd : (dangerTemp t || dangerHum h || dangerCO2 c) with
  | true =>
      simp only [controlFans, hd]
      exact ⟨mT, mH, mC⟩
  | false =>
      simp only [controlFans, hd]
      exact ⟨bandStep_mutex cfg.minTemp cfg.maxTemp t s.tempHigh s.tempLow hT mT,
             bandStep_mutex cfg.minHumid cfg.maxHumid h s.humHigh s.humLow hH mH,
             bandStep_mutex cfg.minCO2 cfg.maxCO2 c s.co2High s.co2Low hC mC⟩

/-- C9, amended, witness: one default-threshold evaluation from the
power-up state keeps the temperature flags mutually exclusive. -/
theorem c9_amended_mutex_witness :
    ¬((controlFans airCfg0 32 70 700 fanInit).tempHigh = true ∧
      (controlFans airCfg0 32 70 700 fanInit).tempLow = true) := by
  exact (c9_amended_mutex airCfg0 32 70 700 fanInit (by decide) (by decide)
    (by decide) (by decide) (by decide) (by decide)).1

/-! ## Theorems: the water variant (claims on `handleActuators`) -/

/-- A water state with the cooling loop running: all three relays on,
`coolingActive` and the sticky `coolingState` true, manual drain off. -/
def waterCoolOn : WaterState :=
  { relayPeltier := true, relayPump := true, relayFan := true
    coolingActive := true, coolingState := true, manualDrainActive := false }

/-- C5, counterexample: in the water variant, a cycle whose DS18B20 reading
is unavailable does not hold the last actuator state — the sentinel `-99` is
fed into the cooling logic, and with cooling previously on the cycle turns
the whole cooling system off (`-99 ≤ OPTIMAL_TEMP_MIN`). -/
theorem c5_counterexample :
    waterCoolOn.coolingActive = true ∧
    (handleActuators none waterCfg0 waterCoolOn).coolingActive = false ∧
    (handleActuators none waterCfg0 waterCoolOn).relayPeltier = false := by
  decide

/-- C5, amended: the air variant does suppress — a NaN temperature or
humidity reading skips `controlFans` and leaves the fan-controller state
unchanged — but the water variant does not: an unavailable DS18B20 reading
is converted to the numeric sentinel `-99` and evaluated exactly like a
reading of `-99`, so with cooling on it switches the cooling system off. -/
theorem c5_amended_unavailable :
    (∀ (hOpt : Option Int) (co2 : Int) (cfg : AirCfg) (s : FanState),
      readAndSendSensors none hOpt co2 cfg s = s) ∧
    (∀ (t co2 : Int) (cfg : AirCfg) (s : FanState),
      readAndSendSensors (some t) none co2 cfg s = s) ∧
    (∀ (cfg : WaterCfg) (s : WaterState),
      handleActuators none cfg s = handleActuators (some (-99)) cfg s) ∧
    (∀ (cfg : WaterCfg) (s : WaterState),
      s.manualDrainActive = false → s.coolingState = true →
      (-99 : Int) ≤ cfg.OPTIMAL_TEMP_MIN →
      (handleActuators none cfg s).coolingActive = false) := by
  refine ⟨?_, ?_, ?_, ?_⟩
  · intro hOpt co2 cfg s; rfl
  · intro t co2 cfg s; rfl
  · intro cfg s; rfl
  · intro cfg s h1 h2 h3
    simp [handleActuators, coolingStep, controlCoolingSystem, readWaterTemp,
      h1, h2, h3]

/-- C5, amended, witness: concrete instantiation — a NaN air reading leaves
the fan state unchanged, and an unavailable water reading turns cooling
off. -/
theorem c5_amended_unavailable_witness :
    readAndSendSensors none (some 70) 700 airCfg0 fanInit = fanInit ∧
    (handleActuators none waterCfg0 waterCoolOn).coolingActive = false := by
  exact ⟨c5_amended_unavailable.1 (some 70) 700 airCfg0 fanInit,
    c5_amended_unavailable.2.2.2 waterCfg0 waterCoolOn rfl rfl (by decide)⟩

/-- C7, counterexample: with the defaults `OPTIMAL_TEMP_MAX = 28`,
`OPTIMAL_TEMP_MIN = 24` and cooling on, a reading of exactly 27 keeps
cooling on — the code's OFF test is `temp ≤ lowerOff` with
`lowerOff = OPTIMAL_TEMP_MIN = 24`, not the claim's 27; the computed
`upperOff = 27` is never consulted. -/
theorem c7_counterexample :
    (handleActuators (some 27) waterCfg0 waterCoolOn).coolingActive = true ∧
    coolingStep waterCfg0 27 true = true := by
  decide

/-- C7, amended: with `OPTIMAL_TEMP_MAX = 28` and `OPTIMAL_TEMP_MIN = 24`, a
reading of 28 turns cooling on (`28 ≥ 28`); as the temperature falls,
cooling remains on at every reading above 24 and turns off at exactly 24,
per the boundary-inclusive `≤ lowerOff` rule with
`lowerOff = OPTIMAL_TEMP_MIN`; strictly between 24 and 28 the prior cooling
output is retained unchanged. -/
theorem c7_amended_cooling_bounds (t : Int) (cb : Bool) :
    coolingStep waterCfg0 28 false = true ∧
    (24 < t → coolingStep waterCfg0 t true = true) ∧
    coolingStep waterCfg0 24 true = false ∧
    (24 < t → t < 28 → coolingStep waterCfg0 t cb = cb) := by
  refine ⟨by decide, ?_, by decide, ?_⟩
  · intro h1
    simp only [coolingStep, waterCfg0]
    norm_num
    omega
  · intro h1 h2
    cases cb <;> simp only [coolingStep, waterCfg0] <;> norm_num <;> omega

/-- C7, amended, witness: at 25 with cooling on, cooling stays on; at 26
with cooling off, it stays off (both in the retention zone). -/
theorem c7_amended_cooling_bounds_witness :
    (24 : Int) < 25 ∧ coolingStep waterCfg0 25 true = true ∧
    coolingStep waterCfg0 26 false = false := by
  refine ⟨by decide, ?_, ?_⟩
  · exact (c7_amended_cooling_bounds 25 true).2.1 (by decide)
  · exact (c7_amended_cooling_bounds 26 false).2.2.2 (by decide) (by decide)

/-! ## Theorems: the duty-cycle scheduler -/

/-- C4: with the defaults `light_on_hours = 6`, `fogger_pulse_seconds = 5`
(scenario C) and `enable()` at t = 0, the light turns on with a fogger pulse
at t = 0 that ends at t = 5, the light turns off at t = 21600 and on again
at t = 43200 — but the single `lightTicker` slot holds only the light-off
callback (deadline 21600): arming the light-off timer replaced the halfway
fogger timer, so at t = 10800 no second fogger pulse fires (the fogger is
off at 10800 and still off at 10803). -/
theorem c4_halfway_timer_lost :
    (enableScheduler true 0 schedInit).lightState = true ∧
    (enableScheduler true 0 schedInit).foggerState = true ∧
    (enableScheduler true 0 schedInit).lightSlot =
      some (21600, LightEvt.lightOff) ∧
    (advance 32 5 (enableScheduler true 0 schedInit)).foggerState = false ∧
    (advance 32 10800 (enableScheduler true 0 schedInit)).foggerState = false ∧
    (advance 32 10800 (enableScheduler true 0 schedInit)).foggerActive = false ∧
    (advance 32 10803 (enableScheduler true 0 schedInit)).foggerState = false ∧
    (advance 32 21600 (enableScheduler true 0 schedInit)).lightState = false ∧
    (advance 32 43199 (enableScheduler true 0 schedInit)).lightState = false ∧
    (advance 32 43200 (enableScheduler true 0 schedInit)).lightState = true := by
  decide

/-- C6: disabling the scheduler from any state leaves the light off, the
fogger off, and both ticker slots empty. -/
theorem c6_disable_all_off (s : SchedState) (now : Nat) :
    (enableScheduler false now s).lightState = false ∧
    (enableScheduler false now s).foggerState = false ∧
    (enableScheduler false now s).lightSlot = none ∧
    (enableScheduler false now s).foggerSlot = none := by
  exact ⟨rfl, rfl, rfl, rfl⟩

/-- C8: cycle-configuration writes are accepted exactly when the scheduler
is disabled and the value is in bounds (1..11 hours, 5..180 seconds); a
rejected write retains the previous value — but the retained value is echoed
to the wrong datastream: the V7 handler echoes to pin V6 and the V8 handler
echoes to pin V7, not to the pin that issued the write. -/
theorem c8_echo_wrong_pin :
    blynkWriteV7 13 schedInit = (schedInit, some (Pin.V6, 6)) ∧
    blynkWriteV8 200 schedInit = (schedInit, some (Pin.V7, 5)) ∧
    (blynkWriteV7 8 schedInit).1.userLightOnHours = 8 ∧
    (blynkWriteV7 8 schedInit).2 = none ∧
    (blynkWriteV8 60 schedInit).1.userFoggerSeconds = 60 ∧
    (blynkWriteV8 60 schedInit).2 = none ∧
    blynkWriteV7 8 { schedInit with schedulerEnabled := true } =
      ({ schedInit with schedulerEnabled := true }, some (Pin.V6, 6)) ∧
    Pin.V6 ≠ Pin.V7 ∧ Pin.V7 ≠ Pin.V8 := by
  decide

/-- The stuck-fogger configuration: pulse flag latched, fogger off, no
fogger-off timer pending. Once reached, the fogger can never turn on again
(only the fogger-off lambda clears `foggerActive`, and it is armed only when
`foggerActive` is false). -/
def StuckFogger (s : SchedState) : Prop :=
  s.foggerActive = true ∧ s.foggerSlot = none ∧ s.foggerState = false

/-- `scheduleFoggerNow` is a no-op while a pulse is marked active. -/
theorem scheduleFoggerNow_noop (now : Nat) (s : SchedState)
    (h : s.foggerActive = true) : scheduleFoggerNow now s = s := by
  cases hl : s.lightState <;> simp [scheduleFoggerNow, h, hl]

/-- `scheduleGrowLight` preserves the stuck-fogger configuration. -/
theorem stuckFogger_scheduleGrowLight (now : Nat) (s : SchedState)
    (h : StuckFogger s) : StuckFogger (scheduleGrowLight now s) := by
  obtain ⟨h1, h2, h3⟩ := h
  simp [scheduleGrowLight, setLightState, setFoggerState, scheduleFoggerNow,
    StuckFogger, h1, h2, h3]

/-- Every `lightTicker` callback preserves the stuck-fogger
configuration. -/
theorem stuckFogger_fireLightEvt (now : Nat) (e : LightEvt) (s : SchedState)
    (h : StuckFogger s) : StuckFogger (fireLightEvt now e s) := by
  obtain ⟨h1, h2, h3⟩ := h
  cases e with
  | halfwayPulse =>
      rw [fireLightEvt, scheduleFoggerNow_noop now s h1]
      exact ⟨h1, h2, h3⟩
  | lightOff => exact ⟨h1, h2, h3⟩
  | growLight => exact stuckFogger_scheduleGrowLight now s ⟨h1, h2, h3⟩

/-- The timer dispatch preserves the stuck-fogger configuration. -/
theorem stuckFogger_advance (fuel : Nat) :
    ∀ (t : Nat) (s : SchedState), StuckFogger s →
      StuckFogger (advance fuel t s) := by
  induction fuel with
  | zero => intro t s h; exact h
  | succ n ih =>
      intro t s h
      obtain ⟨h1, h2, h3⟩ := h
      cases hl : s.lightSlot with
      | none =>
          simp only [advance, h2, hl]
          exact ⟨h1, h2, h3⟩
      | some de =>
          obtain ⟨dl, e⟩ := de
          simp only [advance, h2, hl]
          split
          · exact ih t _ (stuckFogger_fireLightEvt dl e _ ⟨h1, rfl, h3⟩)
          · exact ⟨h1, h2, h3⟩

/-- Enabling the scheduler preserves the stuck-fogger configuration. -/
theorem stuckFogger_enable (now : Nat) (s : SchedState)
    (h : StuckFogger s) : StuckFogger (enableScheduler true now s) := by
  obtain ⟨h1, h2, h3⟩ := h
  exact stuckFogger_scheduleGrowLight now _ ⟨h1, rfl, h3⟩

/-- C10: disabling the scheduler while a fogger pulse is active
(`foggerActive = true`) switches the fogger off and cancels its off-timer
but leaves `foggerActive` latched true; from then on `scheduleFoggerNow` is
a no-op whenever the flag is set, and after any re-enable the fogger stays
off (and the flag stays latched) through every sequence of timer firings. -/
theorem c10_fogger_stuck (s : SchedState) (t0 : Nat)
    (hact : s.foggerActive = true) :
    (enableScheduler false t0 s).foggerActive = true ∧
    (enableScheduler false t0 s).foggerState = false ∧
    (enableScheduler false t0 s).foggerSlot = none ∧
    (∀ (now : Nat) (s2 : SchedState), s2.foggerActive = true →
      scheduleFoggerNow now s2 = s2) ∧
    (∀ (t1 fuel t : Nat),
      (advance fuel t
        (enableScheduler true t1 (enableScheduler false t0 s))).foggerState
        = false ∧
      (advance fuel t
        (enableScheduler true t1 (enableScheduler false t0 s))).foggerActive
        = true) := by
  have hstuck : StuckFogger (enableScheduler false t0 s) := ⟨hact, rfl, rfl⟩
  refine ⟨hact, rfl, rfl, scheduleFoggerNow_noop, ?_⟩
  intro t1 fuel t
  have h := stuckFogger_advance fuel t _ (stuckFogger_enable t1 _ hstuck)
  exact ⟨h.2.2, h.1⟩

/-- A scheduler state in the middle of a fogger pulse: light on, fogger on,
pulse active, the fogger-off timer armed for t = 103. -/
def schedMidPulse : SchedState :=
  { schedInit with
    lightState := true
    foggerState := true
    foggerActive := true
    foggerSlot := some 103 }

/-- C10, witness: the mid-pulse state is disabled at t = 100 and re-enabled
at t = 200; the flag stays latched and the fogger is still off after the
dispatch runs to t = 50000. -/
theorem c10_fogger_stuck_witness :
    (enableScheduler false 100 schedMidPulse).foggerActive = true ∧
    (advance 8 50000 (enableScheduler true 200
      (enableScheduler false 100 schedMidPulse))).foggerState = false := by
  have h := c10_fogger_stuck schedMidPulse 100 rfl
  exact ⟨h.1, (h.2.2.2.2 200 8 50000).1⟩

end UrbaPonics
